import Mathlib

/-!
Verification development for the SQL assistant application (`app.py`).

The pipeline is embedded shallowly: external collaborators (the MySQL
database reached through `SQLDatabase`, the Gemini text-generation model,
and the Streamlit UI) are modelled as explicit oracle parameters, and the
control flow of the Python source is translated function by function.
Python exceptions are modelled with `Except`; dynamic values with explicit
sum/record types.
-/

set_option autoImplicit false

/-- Constant `MAX_RETRIES = 3` from `app.py` line 19. -/
def MAX_RETRIES : Nat := 3

/-- Constant `RETRY_DELAY = 2` from `app.py` line 20. -/
def RETRY_DELAY : Nat := 2

/-- Constant `SUPPORTED_VISUALIZATIONS = ['bar', 'line', 'scatter', 'pie']` from `app.py` line 18. -/
def SUPPORTED_VISUALIZATIONS : List String := ["bar", "line", "scatter", "pie"]

/-- Errors that `DatabaseManager.execute_query` can raise: the
`ValueError("Database not initialized")` raised when `self.db` is unset
(the error the specification taxonomy calls `NotConnectedError`), or an
error propagated from the database collaborator `self.db.run`. -/
inductive ExecErr
  | notConnected (msg : String)
  | query (msg : String)
deriving DecidableEq, Repr

/-- Embedding of `DatabaseManager.execute_query` (`app.py` lines 39-42).
The stored handle `self.db` is the `Option DB` argument; the database
collaborator `self.db.run` is the oracle `run`.  The second component of
the result counts how many times the collaborator was invoked during the
call. -/
def execute_query {DB : Type} (db : Option DB) (run : DB → String → Except String String)
    (q : String) : Except ExecErr String × Nat :=
  match db with
  | none => (Except.error (ExecErr.notConnected "Database not initialized"), 0)
  | some d =>
    match run d q with
    | Except.ok r => (Except.ok r, 1)
    | Except.error e => (Except.error (ExecErr.query e), 1)

/-- Embedding of `DatabaseManager.init_database` (`app.py` lines 26-32).
The outcome of `SQLDatabase.from_uri(connection_string)` is the `fromUri`
argument; `db0` is the value of `self.db` before the call.  On success the
handle is stored and returned; on any failure the `except` clause raises
`ConnectionError(f"Failed to connect to database: {str(e)}")` and the
assignment to `self.db` never happens. -/
def init_database {DB : Type} (fromUri : Except String DB) (db0 : Option DB) :
    Option DB × Except String DB :=
  match fromUri with
  | Except.ok d => (some d, Except.ok d)
  | Except.error e => (db0, Except.error ("Failed to connect to database: " ++ e))

/-- Observable events of the retry loop in `main` (`app.py` lines 212-219):
an invocation of `execute_query` for a given 0-based `attempt` index, and a
`time.sleep(RETRY_DELAY)` call. -/
inductive RetryEv
  | call (attempt : Nat)
  | sleep (duration : Nat)
deriving DecidableEq, Repr

/-- Embedding of the body of the `for attempt in range(MAX_RETRIES)` loop
of `main` (`app.py` lines 212-219), re-expressed with `fuel` counting the
attempts remaining after the current one (so the loop is entered with
`fuel = MAX_RETRIES - 1`, and `fuel = 0` means `attempt == MAX_RETRIES - 1`).
On success the loop breaks with the result; on failure at the last attempt
the error is re-raised; on failure earlier the loop sleeps for
`RETRY_DELAY` and retries.  The event list records calls and sleeps in
order. -/
def retryFrom {E R : Type} (oracle : Nat → Except E R) (attempt fuel : Nat) :
    Except E R × List RetryEv :=
  match fuel, oracle attempt with
  | 0, res => (res, [RetryEv.call attempt])
  | _ + 1, Except.ok r => (Except.ok r, [RetryEv.call attempt])
  | f + 1, Except.error _ =>
    let rest := retryFrom oracle (attempt + 1) f
    (rest.1, RetryEv.call attempt :: RetryEv.sleep RETRY_DELAY :: rest.2)

/-- The whole retry loop of `main` (`app.py` lines 212-219): attempts are
numbered `0, ..., MAX_RETRIES - 1`. -/
def executeWithRetry {E R : Type} (oracle : Nat → Except E R) : Except E R × List RetryEv :=
  retryFrom oracle 0 (MAX_RETRIES - 1)

/-- Minimal model of the Python values `json.loads` can produce. -/
inductive Json
  | null
  | bool (b : Bool)
  | num (n : Int)
  | str (s : String)
  | arr (xs : List Json)
  | obj (fields : List (String × Json))

/-- Joint outcome of the two statements inside the `try` block of
`QueryGenerator.get_visualization_recommendation` (`app.py` lines 80-84):
either `self.model.generate_content(prompt)` raised, or `json.loads` raised
on the returned text, or parsing produced a JSON value. -/
inductive VizOutcome
  | genFailure
  | parseFailure
  | parsed (j : Json)

/-- Embedding of `QueryGenerator.get_visualization_recommendation`
(`app.py` lines 67-84): `try: response = self.model.generate_content(prompt);
return json.loads(response.text) except: return None`.  Any exception from
generation or parsing is swallowed and becomes `none`; a parsed JSON value
is returned as-is, without any validation. -/
def get_visualization_recommendation : VizOutcome → Option Json
  | VizOutcome.genFailure => none
  | VizOutcome.parseFailure => none
  | VizOutcome.parsed j => some j

/-- Python truthiness of a JSON value, used by `if viz_config:` in `main`
(`app.py` line 232). -/
def jsonTruthy : Json → Bool
  | Json.null => false
  | Json.bool b => b
  | Json.num n => n != 0
  | Json.str s => s != ""
  | Json.arr xs => !xs.isEmpty
  | Json.obj fs => !fs.isEmpty

/-- Modelled from the spec: the fixed shape of a `VisualizationConfig`
(section 3 of the spec: chart kind one of `SUPPORTED_VISUALIZATIONS`, two
axis field names, and a title — using the field names the prompt in
`get_visualization_recommendation` requests).  This definition exists only
to compare the source behaviour against the shape the spec promises; the
source itself performs no such check. -/
def specVizConfigShape : Json → Bool
  | Json.obj fields =>
    (match List.lookup "viz_type" fields with
     | some (Json.str t) => SUPPORTED_VISUALIZATIONS.contains t
     | _ => false)
    && (match List.lookup "x_column" fields with
        | some (Json.str _) => true
        | _ => false)
    && (match List.lookup "y_column" fields with
        | some (Json.str _) => true
        | _ => false)
    && (match List.lookup "title" fields with
        | some (Json.str _) => true
        | _ => false)
  | _ => false

/-- A JSON value that `json.loads` produces from a collaborator reply whose
`viz_type` is not one of the supported chart kinds. -/
def badViz : Json :=
  Json.obj [("viz_type", Json.str "heatmap"), ("x_column", Json.str "a"),
            ("y_column", Json.str "b"), ("title", Json.str "t")]

/-- One entry of the conversation log `st.session_state.chat_history`:
a `HumanMessage` or an `AIMessage`, carrying its `content` string. -/
inductive Turn
  | human (content : String)
  | assistant (content : String)
deriving DecidableEq, Repr

/-- How one message renders inside Python `str()` of the history list
(`template.format(chat_history=chat_history)` in `get_sql_chain` stringifies
the message list; each message displays its class name and its content —
the content quoting is elided here). -/
def serializeTurn : Turn → String
  | Turn.human c => "HumanMessage(content=" ++ c ++ ")"
  | Turn.assistant c => "AIMessage(content=" ++ c ++ ")"

/-- Comma-separated rendering of the messages, as in Python `str()` of a
list. -/
def serializeTurns : List Turn → String
  | [] => ""
  | [t] => serializeTurn t
  | t :: t2 :: ts => serializeTurn t ++ ", " ++ serializeTurns (t2 :: ts)

/-- Python `str()` of the whole history list. -/
def serializeHistory (ts : List Turn) : String :=
  "[" ++ serializeTurns ts ++ "]"

/-- Literal template text of `QueryGenerator.get_sql_chain` (`app.py`
lines 49-64) up to the `Schema:` slot. -/
def sqlTpl1 : String :=
  "\n        You are an expert in creating MySQL-compatible SQL queries!\n        Always ensure the SQL command uses proper MySQL syntax.\n        Based on the table schema below, write a MySQL SQL query that answers the user\x27s question.\n        Ensure:\n        1. Identifiers like table and column names are enclosed in backticks (\x60) if needed.\n        2. Avoid unnecessary keywords or decorations.\n\n        Schema: "

/-- Template text between the `Schema:` and `Conversation History:` slots. -/
def sqlTpl2 : String := "\n\n        Conversation History: "

/-- Template text between the `Conversation History:` and `Question:` slots. -/
def sqlTpl3 : String :=
  "\n\n        Generate only the SQL query. Do not include any extra text, comments, or decorators.\n\n        Question: "

/-- Template text after the `Question:` slot. -/
def sqlTpl4 : String := "\n    "

/-- Embedding of `QueryGenerator.get_sql_chain` (`app.py` lines 48-65):
`template.format(schema=schema, chat_history=chat_history, question=question)`,
where `chat_history` is the message list, stringified by `format`. -/
def get_sql_chain (schema : String) (chat_history : List Turn) (question : String) : String :=
  sqlTpl1 ++ schema ++ sqlTpl2 ++ serializeHistory chat_history ++ sqlTpl3 ++ question ++ sqlTpl4

/-- Literal template text of
`QueryGenerator.generate_natural_language_response` (`app.py` lines 87-101)
up to the `SQL Query:` slot. -/
def narrTpl1 : String :=
  "\n        As a data analyst, provide a comprehensive analysis of the SQL query results:\n        \n        1. Summarize the main findings\n        2. Highlight key metrics\n        3. Identify any trends or patterns\n        4. Provide business insights\n        5. Suggest follow-up questions\n        \n        SQL Query: "

/-- Narrative template text between the `SQL Query:` and `Schema:` slots. -/
def narrTpl2 : String := "\n        Schema: "

/-- Narrative template text between the `Schema:` and `Results:` slots. -/
def narrTpl3 : String := "\n        Results: "

/-- Narrative template text after the `Results:` slot. -/
def narrTpl4 : String := "\n        \n        Response:\n        "

/-- The prompt built inside `generate_natural_language_response`. -/
def narrativePrompt (sql schema resp : String) : String :=
  narrTpl1 ++ sql ++ narrTpl2 ++ schema ++ narrTpl3 ++ resp ++ narrTpl4

/-- Embedding of `QueryGenerator.generate_natural_language_response`
(`app.py` lines 86-107): on collaborator success the response text is
stripped and returned; on any exception a formatted error string is
returned instead of raising. -/
def generate_natural_language_response (gen : String → Except String String)
    (sql schema resp : String) : String :=
  match gen (narrativePrompt sql schema resp) with
  | Except.ok t => t.trim
  | Except.error e => "Error generating response: " ++ e

/-- Value returned by one `execute_query` attempt inside the turn pipeline:
its text (as embedded in later prompts) and whether
`isinstance(sql_response, (list, dict))` holds for it. -/
structure QueryResultV where
  text : String
  composite : Bool

/-- The external collaborators and session flags one user turn of `main`
(`app.py` lines 190-241) depends on: whether `"db" in st.session_state`
(set on successful connect), the outcome of `get_schema`, the text model
for SQL generation (applied to the built prompt), per-attempt outcomes of
`execute_query` for the generated SQL, the text model for the narrative
prompt, the `enable_viz` checkbox, the visualization-recommendation
outcome, and the chart construction/rendering outcome. -/
structure TurnEnv where
  connected : Bool
  getSchema : Except String String
  genSQL : String → Except String String
  dbRun : String → Nat → Except String QueryResultV
  narrativeGen : String → Except String String
  enableViz : Bool
  vizOutcome : QueryResultV → VizOutcome
  render : Json → QueryResultV → Except String Unit

/-- The history list at the moment `get_sql_chain` is called in `main`:
the `HumanMessage` for the current question has already been appended
(`app.py` line 192, before the prompt is built at lines 201-205). -/
def historyForPrompt (st : List Turn) (q : String) : List Turn :=
  st ++ [Turn.human q]

/-- Embedding of the body of the `try` block of `main` (`app.py` lines
197-237), run against the history `st1` (which already contains the
current question): read the schema, build the SQL prompt, generate SQL,
execute with retry, generate the narrative (which cannot raise), then
optionally recommend and render a chart.  The result is the narrative
response, or the error that escapes to the `except` clause. -/
def tryPipeline (env : TurnEnv) (st1 : List Turn) (q : String) : Except String String :=
  match env.getSchema with
  | Except.error e => Except.error e
  | Except.ok schema =>
    match env.genSQL (get_sql_chain schema st1 q) with
    | Except.error e => Except.error e
    | Except.ok sql =>
      match (executeWithRetry (env.dbRun sql)).1 with
      | Except.error e => Except.error e
      | Except.ok resp =>
        let response := generate_natural_language_response env.narrativeGen sql schema resp.text
        if env.enableViz && resp.composite then
          match get_visualization_recommendation (env.vizOutcome resp) with
          | some cfg =>
            if jsonTruthy cfg then
              match env.render cfg resp with
              | Except.ok _ => Except.ok response
              | Except.error e => Except.error e
            else Except.ok response
          | none => Except.ok response
        else Except.ok response

/-- Content of the `AIMessage` appended at the end of the turn: the
narrative response on success, or the error message produced by the
`except` clause (`app.py` line 241). -/
def turnReply (env : TurnEnv) (st1 : List Turn) (q : String) : String :=
  match tryPipeline env st1 q with
  | Except.ok response => response
  | Except.error e => "I encountered an error: " ++ e

/-- Embedding of one user turn of `main` (`app.py` lines 190-241).  The
guard is `if user_query and "db" in st.session_state:`; when it holds, the
`HumanMessage` is appended, the pipeline runs over the updated history,
and exactly one `AIMessage` is appended (narrative or error).  The second
component records any exception escaping `main` for this turn: the
`try/except` absorbs every pipeline failure, and when the guard fails the
block is skipped entirely, so nothing ever escapes. -/
def processOneTurn (env : TurnEnv) (st : List Turn) (q : String) :
    List Turn × Option ExecErr :=
  if env.connected && !(q == "") then
    (historyForPrompt st q ++ [Turn.assistant (turnReply env (historyForPrompt st q) q)], none)
  else (st, none)

/-- Processing of a sequence of user turns, each with its own collaborator
behaviour, threading the conversation state. -/
def processAll : List (TurnEnv × String) → List Turn → List Turn
  | [], st => st
  | (env, q) :: rest, st => processAll rest (processOneTurn env st q).1

/-- A concrete connected environment whose collaborators all succeed. -/
def envOk : TurnEnv where
  connected := true
  getSchema := Except.ok "schema"
  genSQL := fun _ => Except.ok "SELECT 1"
  dbRun := fun _ _ => Except.ok ⟨"7", false⟩
  narrativeGen := fun _ => Except.ok "answer"
  enableViz := false
  vizOutcome := fun _ => VizOutcome.genFailure
  render := fun _ _ => Except.ok ()

/-- The same environment with no database connection established. -/
def envDisc : TurnEnv := { envOk with connected := false }

theorem string_data_append (a b : String) : (a ++ b).data = a.data ++ b.data := rfl

/-- Claim C2: invoking `execute_query` when no database connection has been
established (`self.db` is `None`) fails with the not-connected error
(`ValueError("Database not initialized")`, the spec's `NotConnectedError`),
and the database collaborator `self.db.run` is invoked zero times. -/
theorem execute_query_without_connection (DB : Type)
    (run : DB → String → Except String String) (q : String) :
    execute_query (none : Option DB) run q
      = (Except.error (ExecErr.notConnected "Database not initialized"), 0) := rfl

/-- Claim C9: if `SQLDatabase.from_uri` fails, `init_database` raises
`ConnectionError` with the wrapped message and leaves the stored handle
`self.db` exactly as it was before the call; the handle is replaced only
when connecting succeeds. -/
theorem init_database_preserves_handle_on_failure (DB : Type) (db0 : Option DB)
    (e : String) (d : DB) :
    init_database (Except.error e : Except String DB) db0
        = (db0, Except.error ("Failed to connect to database: " ++ e))
      ∧ init_database (Except.ok d : Except String DB) db0 = (some d, Except.ok d) :=
  ⟨rfl, rfl⟩

theorem retryFrom_zero {E R : Type} (oracle : Nat → Except E R) (attempt : Nat) :
    retryFrom oracle attempt 0 = (oracle attempt, [RetryEv.call attempt]) := by
  conv_lhs => rw [retryFrom.eq_def]

theorem retryFrom_succ_ok {E R : Type} (oracle : Nat → Except E R) (attempt f : Nat)
    (r : R) (h : oracle attempt = Except.ok r) :
    retryFrom oracle attempt (f + 1) = (Except.ok r, [RetryEv.call attempt]) := by
  conv_lhs => rw [retryFrom.eq_def]
  rw [h]

theorem retryFrom_succ_err {E R : Type} (oracle : Nat → Except E R) (attempt f : Nat)
    (e : E) (h : oracle attempt = Except.error e) :
    retryFrom oracle attempt (f + 1)
      = ((retryFrom oracle (attempt + 1) f).1,
         RetryEv.call attempt :: RetryEv.sleep RETRY_DELAY
           :: (retryFrom oracle (attempt + 1) f).2) := by
  conv_lhs => rw [retryFrom.eq_def]
  rw [h]

/-- Claim C3: if `execute_query` fails on exactly the first two attempts
and succeeds on the third, the retry loop returns the third attempt's
success result, the collaborator is invoked exactly three times, and the
`RETRY_DELAY = 2` sleep happens exactly twice, between attempts 1 and 2
and between attempts 2 and 3, never after the final attempt. -/
theorem retry_succeeds_third_attempt {E R : Type} (oracle : Nat → Except E R)
    (e0 e1 : E) (r : R) (h0 : oracle 0 = Except.error e0)
    (h1 : oracle 1 = Except.error e1) (h2 : oracle 2 = Except.ok r) :
    executeWithRetry oracle
        = (Except.ok r,
           [RetryEv.call 0, RetryEv.sleep RETRY_DELAY, RetryEv.call 1,
            RetryEv.sleep RETRY_DELAY, RetryEv.call 2])
      ∧ RETRY_DELAY = 2 := by
  constructor
  · show retryFrom oracle 0 (1 + 1) = _
    rw [retryFrom_succ_err oracle 0 1 e0 h0]
    rw [show (0 : Nat) + 1 = 0 + 1 from rfl]
    rw [retryFrom_succ_err oracle (0 + 1) 0 e1 (by simpa using h1)]
    rw [retryFrom_zero]
    simp [h2]
  · rfl

/-- Witness for `retry_succeeds_third_attempt` at a concrete oracle that
fails twice then succeeds. -/
theorem retry_succeeds_third_attempt_witness :
    executeWithRetry (fun n => if n < 2 then (Except.error "boom" : Except String Nat)
        else Except.ok 42)
        = (Except.ok 42,
           [RetryEv.call 0, RetryEv.sleep RETRY_DELAY, RetryEv.call 1,
            RetryEv.sleep RETRY_DELAY, RetryEv.call 2])
      ∧ RETRY_DELAY = 2 :=
  retry_succeeds_third_attempt _ "boom" "boom" 42 rfl rfl rfl

/-- Claim C4: if `execute_query` fails on all three attempts, the retry
loop re-raises exactly the error of the final (third) attempt, the
collaborator is invoked exactly three times (never a fourth), and the
sleep happens only between consecutive attempts, not after the last. -/
theorem retry_exhausts_three_attempts {E R : Type} (oracle : Nat → Except E R)
    (e0 e1 e2 : E) (h0 : oracle 0 = Except.error e0)
    (h1 : oracle 1 = Except.error e1) (h2 : oracle 2 = Except.error e2) :
    executeWithRetry oracle
      = (Except.error e2,
         [RetryEv.call 0, RetryEv.sleep RETRY_DELAY, RetryEv.call 1,
          RetryEv.sleep RETRY_DELAY, RetryEv.call 2]) := by
  show retryFrom oracle 0 (1 + 1) = _
  rw [retryFrom_succ_err oracle 0 1 e0 h0]
  rw [retryFrom_succ_err oracle (0 + 1) 0 e1 (by simpa using h1)]
  rw [retryFrom_zero]
  simp [h2]

/-- Witness for `retry_exhausts_three_attempts` at a concrete oracle that
fails on every attempt. -/
theorem retry_exhausts_three_attempts_witness :
    executeWithRetry (fun n => (Except.error (toString n) : Except String Nat))
      = (Except.error "2",
         [RetryEv.call 0, RetryEv.sleep RETRY_DELAY, RetryEv.call 1,
          RetryEv.sleep RETRY_DELAY, RetryEv.call 2]) :=
  retry_exhausts_three_attempts _ "0" "1" "2" rfl rfl rfl

/-- Counterexample to claim C6: a JSON reply whose `viz_type` is
`"heatmap"` (not a supported chart kind) is returned as a present config
by `get_visualization_recommendation`, not rejected as absent — the source
performs no shape or chart-kind validation. -/
theorem viz_config_unvalidated_counterexample :
    get_visualization_recommendation (VizOutcome.parsed badViz) = some badViz
      ∧ specVizConfigShape badViz = false := by
  exact ⟨rfl, by decide⟩

/-- Amended claim C6: whenever `get_visualization_recommendation` returns a
present config, that config is exactly the JSON value parsed from the
collaborator's reply, passed through with no validation of chart kind or
shape. -/
theorem viz_recommendation_pass_through (j : Json) :
    get_visualization_recommendation (VizOutcome.parsed j) = some j := rfl

/-- Claim C7: if the text-generation collaborator fails, or its reply does
not parse as JSON, `get_visualization_recommendation` returns absent
(`None`); the failure is caught by the bare `except` and never propagates
to the caller. -/
theorem viz_failure_yields_absent :
    get_visualization_recommendation VizOutcome.genFailure = none
      ∧ get_visualization_recommendation VizOutcome.parseFailure = none :=
  ⟨rfl, rfl⟩

/-- Claim C8: the SQL-generation prompt built by `get_sql_chain` contains
the schema text, the serialized conversation history, and the literal
question text, each as a substring. -/
theorem sql_prompt_embeds_inputs (schema : String) (hist : List Turn) (q : String) :
    (∃ u v, (get_sql_chain schema hist q).data = u ++ schema.data ++ v)
    ∧ (∃ u v, (get_sql_chain schema hist q).data = u ++ (serializeHistory hist).data ++ v)
    ∧ (∃ u v, (get_sql_chain schema hist q).data = u ++ q.data ++ v) := by
  refine ⟨⟨sqlTpl1.data, (sqlTpl2 ++ serializeHistory hist ++ sqlTpl3 ++ q ++ sqlTpl4).data, ?_⟩,
          ⟨(sqlTpl1 ++ schema ++ sqlTpl2).data, (sqlTpl3 ++ q ++ sqlTpl4).data, ?_⟩,
          ⟨(sqlTpl1 ++ schema ++ sqlTpl2 ++ serializeHistory hist ++ sqlTpl3).data,
            sqlTpl4.data, ?_⟩⟩ <;>
    simp [get_sql_chain, string_data_append, List.append_assoc]

theorem serializeTurns_last_data (ts : List Turn) (t : Turn) :
    ∃ u, (serializeTurns (ts ++ [t])).data = u ++ (serializeTurn t).data := by
  induction ts with
  | nil => exact ⟨[], by simp [serializeTurns]⟩
  | cons x xs ih =>
    obtain ⟨u, hu⟩ := ih
    cases xs with
    | nil =>
      exact ⟨(serializeTurn x).data ++ (", ").data, by
        simp [serializeTurns, string_data_append, List.append_assoc]⟩
    | cons y ys =>
      refine ⟨(serializeTurn x).data ++ (", ").data ++ u, ?_⟩
      have hstep : serializeTurns ((x :: y :: ys) ++ [t])
          = serializeTurn x ++ ", " ++ serializeTurns ((y :: ys) ++ [t]) := by
        simp [serializeTurns]
      rw [hstep, string_data_append, string_data_append, hu]
      simp [List.append_assoc]

theorem question_in_serialized_history (st : List Turn) (q : String) :
    ∃ u v, (serializeHistory (historyForPrompt st q)).data = u ++ q.data ++ v := by
  obtain ⟨u, hu⟩ := serializeTurns_last_data st (Turn.human q)
  refine ⟨("[").data ++ u ++ ("HumanMessage(content=").data, (")").data ++ ("]").data, ?_⟩
  simp [serializeHistory, historyForPrompt, string_data_append, hu, serializeTurn,
    List.append_assoc]

theorem processOneTurn_connected_eq (env : TurnEnv) (st : List Turn) (q : String)
    (hc : env.connected = true) (hq : q ≠ "") :
    processOneTurn env st q
      = (st ++ [Turn.human q, Turn.assistant (turnReply env (st ++ [Turn.human q]) q)],
         none) := by
  have hq2 : (q == "") = false := beq_eq_false_iff_ne.mpr hq
  simp [processOneTurn, hc, hq2, historyForPrompt]

/-- Claim C10: in a processed turn the `HumanMessage` holding the question
is appended to the history before the SQL-generation prompt is built from
that same history, so the serialized history inside the prompt already
contains the question, and the question appears both in the history
section and in the question slot of the prompt. -/
theorem question_in_history_before_prompt (env : TurnEnv) (st : List Turn) (q schema : String)
    (hc : env.connected = true) (hq : q ≠ "") :
    (∃ u v, (serializeHistory (historyForPrompt st q)).data = u ++ q.data ++ v)
    ∧ (get_sql_chain schema (historyForPrompt st q) q).data
        = sqlTpl1.data ++ schema.data ++ sqlTpl2.data
            ++ (serializeHistory (historyForPrompt st q)).data
            ++ sqlTpl3.data ++ q.data ++ sqlTpl4.data
    ∧ (processOneTurn env st q).1
        = st ++ [Turn.human q, Turn.assistant (turnReply env (historyForPrompt st q) q)] := by
  refine ⟨question_in_serialized_history st q, ?_, ?_⟩
  · simp [get_sql_chain, string_data_append, List.append_assoc]
  · rw [processOneTurn_connected_eq env st q hc hq]
    simp [historyForPrompt]

/-- Witness for `question_in_history_before_prompt` at a concrete turn. -/
theorem question_in_history_before_prompt_witness :
    envOk.connected = true ∧ ("hi" : String) ≠ ""
    ∧ ((∃ u v, (serializeHistory (historyForPrompt [] "hi")).data
          = u ++ ("hi" : String).data ++ v)
      ∧ (get_sql_chain "s" (historyForPrompt [] "hi") "hi").data
          = sqlTpl1.data ++ ("s" : String).data ++ sqlTpl2.data
              ++ (serializeHistory (historyForPrompt [] "hi")).data
              ++ sqlTpl3.data ++ ("hi" : String).data ++ sqlTpl4.data
      ∧ (processOneTurn envOk [] "hi").1
          = [] ++ [Turn.human "hi",
                   Turn.assistant (turnReply envOk (historyForPrompt [] "hi") "hi")]) :=
  ⟨rfl, by decide, question_in_history_before_prompt envOk [] "hi" "s" rfl (by decide)⟩

/-- Counterexample to claim C5: with no connection established the turn
block of `main` is skipped entirely — the state is unchanged (that part of
the claim holds) but no error at all surfaces, in particular not the
not-connected error the claim requires. -/
theorem skipped_turn_counterexample :
    (processOneTurn envDisc [] "hello").1 = []
    ∧ (processOneTurn envDisc [] "hello").2 = none
    ∧ ∀ e : ExecErr, (processOneTurn envDisc [] "hello").2 ≠ some e :=
  ⟨rfl, rfl, fun e h => Option.noConfusion (show (none : Option ExecErr) = some e from h)⟩

/-- Amended claim C5: when no database connection has been established,
processing a turn leaves the ConversationState unchanged and surfaces no
error at all: the guard `if user_query and "db" in st.session_state:`
silently skips the turn instead of raising or returning the not-connected
error. -/
theorem disconnected_turn_silently_skipped (env : TurnEnv) (st : List Turn) (q : String)
    (h : env.connected = false) :
    processOneTurn env st q = (st, none) := by
  simp [processOneTurn, h]

/-- Witness for `disconnected_turn_silently_skipped` at a concrete turn. -/
theorem disconnected_turn_silently_skipped_witness :
    envDisc.connected = false ∧ processOneTurn envDisc [] "hello" = ([], none) :=
  ⟨rfl, disconnected_turn_silently_skipped envDisc [] "hello" rfl⟩

theorem processAll_grows (inputs : List (TurnEnv × String)) :
    ∀ st : List Turn, (∀ p ∈ inputs, p.1.connected = true ∧ p.2 ≠ "") →
      (processAll inputs st).length = st.length + 2 * inputs.length
      ∧ ∃ tail, processAll inputs st = st ++ tail := by
  induction inputs with
  | nil =>
    intro st _
    exact ⟨by simp [processAll], [], by simp [processAll]⟩
  | cons p rest ih =>
    intro st h
    obtain ⟨env, q⟩ := p
    obtain ⟨hc, hq⟩ := h (env, q) (List.mem_cons_self _ _)
    have hstep := processOneTurn_connected_eq env st q hc hq
    have hall : processAll ((env, q) :: rest) st
        = processAll rest (processOneTurn env st q).1 := rfl
    obtain ⟨hlen, tail, htail⟩ :=
      ih (processOneTurn env st q).1 (fun x hx => h x (List.mem_cons_of_mem _ hx))
    constructor
    · rw [hall, hlen, hstep]
      simp only [List.length_append, List.length_cons, List.length_nil]
      omega
    · refine ⟨[Turn.human q, Turn.assistant (turnReply env (st ++ [Turn.human q]) q)] ++ tail, ?_⟩
      rw [hall, htail, hstep]
      simp [List.append_assoc]

/-- Claim C1: over any sequence of processed user turns with a connection
established, the conversation grows by exactly two turns per user turn
(one `HumanMessage` then one `AIMessage` appended at the end), prior turns
are never removed or modified (the old state stays a prefix), and when the
pipeline fails the appended `AIMessage` carries the error content instead
of a narrative. -/
theorem conversation_append_two_per_turn (inputs : List (TurnEnv × String)) (st : List Turn)
    (h : ∀ p ∈ inputs, p.1.connected = true ∧ p.2 ≠ "") :
    (processAll inputs st).length = st.length + 2 * inputs.length
    ∧ (∃ tail, processAll inputs st = st ++ tail)
    ∧ (∀ (env : TurnEnv) (st0 : List Turn) (q : String), env.connected = true → q ≠ "" →
        processOneTurn env st0 q
          = (st0 ++ [Turn.human q, Turn.assistant (turnReply env (st0 ++ [Turn.human q]) q)],
             none)
        ∧ ∀ e, tryPipeline env (st0 ++ [Turn.human q]) q = Except.error e →
            turnReply env (st0 ++ [Turn.human q]) q = "I encountered an error: " ++ e) := by
  obtain ⟨h1, h2⟩ := processAll_grows inputs st h
  refine ⟨h1, h2, ?_⟩
  intro env st0 q hc hq
  refine ⟨processOneTurn_connected_eq env st0 q hc hq, ?_⟩
  intro e he
  simp [turnReply, he]

/-- Witness for `conversation_append_two_per_turn` on one concrete turn. -/
theorem conversation_append_two_per_turn_witness :
    (processAll [(envOk, "hi")] []).length
        = ([] : List Turn).length + 2 * [(envOk, "hi")].length
    ∧ (∃ tail, processAll [(envOk, "hi")] [] = [] ++ tail)
    ∧ (∀ (env : TurnEnv) (st0 : List Turn) (q : String), env.connected = true → q ≠ "" →
        processOneTurn env st0 q
          = (st0 ++ [Turn.human q, Turn.assistant (turnReply env (st0 ++ [Turn.human q]) q)],
             none)
        ∧ ∀ e, tryPipeline env (st0 ++ [Turn.human q]) q = Except.error e →
            turnReply env (st0 ++ [Turn.human q]) q = "I encountered an error: " ++ e) :=
  conversation_append_two_per_turn [(envOk, "hi")] []
    (by
      intro p hp
      rw [List.mem_singleton] at hp
      subst hp
      exact ⟨rfl, by decide⟩)
